import Mathlib

/-!
Shallow embedding of the attendance calculation core of the
Attendence-Management repository.

The embedded code:
* `calculateAttendance` from `src/components/AttendanceCalculator.tsx`
  (lines 40-100): input validation, current percentage, classes to
  attend, classes to bunk, and the status bands.
* the future-scenario projection from `AttendanceChart`
  (`futureAttendanceScenarios`, lines 34-48 of that component).
* the "reach a higher target" computation from `AttendanceInsights`
  (`targetInsights`, lines 262-276 of that component).

Class counts are JavaScript numbers produced by `parseInt` in the UI, so
they are modelled as integers (`ℤ`); percentage arithmetic is modelled
over `ℚ`.  `Math.ceil` / `Math.floor` become `Int.ceil` / `Int.floor`.
The React state cell holding the last result is modelled as an
`Option AttendanceResult` threaded through `calcStep`.  The `message`
string and the scenario `label` strings are display formatting
(`toFixed` rendering) and are not the subject of any property below, so
they are omitted from the records.
-/

namespace Attendance

/-- Equality on `Except` values is decidable when it is on both components. -/
instance {ε α : Type} [DecidableEq ε] [DecidableEq α] : DecidableEq (Except ε α) := fun x y =>
  match x, y with
  | Except.error a, Except.error b =>
    if h : a = b then Decidable.isTrue (congrArg Except.error h)
    else Decidable.isFalse (fun hc => h (by injection hc))
  | Except.ok a, Except.ok b =>
    if h : a = b then Decidable.isTrue (congrArg Except.ok h)
    else Decidable.isFalse (fun hc => h (by injection hc))
  | Except.error _, Except.ok _ => Decidable.isFalse (fun hc => Except.noConfusion hc)
  | Except.ok _, Except.error _ => Decidable.isFalse (fun hc => Except.noConfusion hc)

/-- The status field of a result: 'safe' | 'warning' | 'danger'. -/
inductive Status where
  | safe
  | warning
  | danger
deriving DecidableEq, Repr

/-- The `AttendanceResult` record of `AttendanceCalculator.tsx` (without
the display-only `message` string). -/
structure AttendanceResult where
  currentPercentage : ℚ
  status : Status
  classesToAttend : ℤ
  classesToBunk : ℤ
deriving DecidableEq, Repr

/-- Line 61: `const currentPercentage = (attendedClasses / totalClasses) * 100`. -/
def currentPercentageCalc (totalClasses attendedClasses : ℤ) : ℚ :=
  ((attendedClasses : ℚ) / (totalClasses : ℚ)) * 100

/-- Lines 64-66: `Math.max(0, Math.ceil((targetPercentage * totalClasses
- 100 * attendedClasses) / (100 - targetPercentage)))`. -/
def classesToAttendCalc (totalClasses attendedClasses : ℤ) (targetPercentage : ℚ) : ℤ :=
  max 0 (Int.ceil ((targetPercentage * (totalClasses : ℚ) - 100 * (attendedClasses : ℚ)) /
    (100 - targetPercentage)))

/-- Lines 69-71: `Math.floor((attendedClasses - (targetPercentage / 100)
* totalClasses) / (targetPercentage / 100))`. -/
def maxMissableClasses (totalClasses attendedClasses : ℤ) (targetPercentage : ℚ) : ℤ :=
  Int.floor (((attendedClasses : ℚ) - (targetPercentage / 100) * (totalClasses : ℚ)) /
    (targetPercentage / 100))

/-- Line 72: `Math.max(0, maxMissableClasses)`. -/
def classesToBunkCalc (totalClasses attendedClasses : ℤ) (targetPercentage : ℚ) : ℤ :=
  max 0 (maxMissableClasses totalClasses attendedClasses targetPercentage)

/-- Lines 77-86: the status band selection. -/
def statusCalc (totalClasses attendedClasses : ℤ) (targetPercentage : ℚ) : Status :=
  if currentPercentageCalc totalClasses attendedClasses ≥ targetPercentage then
    Status.safe
  else if currentPercentageCalc totalClasses attendedClasses ≥ targetPercentage - 5 then
    Status.warning
  else
    Status.danger

/-- Lines 40-100 of `AttendanceCalculator.tsx`: validation (lines 43-59)
followed by the computation of the result record.  A failed validation
surfaces as an `Except.error` carrying the toast description. -/
def calculateAttendance (totalClasses attendedClasses : ℤ) (targetPercentage : ℚ) :
    Except String AttendanceResult :=
  if totalClasses ≤ 0 then
    Except.error "Total classes must be greater than 0"
  else if attendedClasses > totalClasses then
    Except.error "Attended classes cannot exceed total classes"
  else
    Except.ok
      { currentPercentage := currentPercentageCalc totalClasses attendedClasses
        status := statusCalc totalClasses attendedClasses targetPercentage
        classesToAttend := classesToAttendCalc totalClasses attendedClasses targetPercentage
        classesToBunk := classesToBunkCalc totalClasses attendedClasses targetPercentage }

/-- The effect of one button press on the `result` state cell: on a
validation failure `calculateAttendance` returns before `setResult`, so
the previous state survives; on success the state becomes the fresh
record. -/
def calcStep (totalClasses attendedClasses : ℤ) (targetPercentage : ℚ)
    (result : Option AttendanceResult) : Option AttendanceResult :=
  match calculateAttendance totalClasses attendedClasses targetPercentage with
  | Except.error _ => result
  | Except.ok r => some r

/-- One element of the `futureAttendanceScenarios` array of
`AttendanceChart` (without the display-only `label`). -/
structure ScenarioProjection where
  classes : ℤ
  percentage : ℚ
  status : String
deriving DecidableEq, Repr

/-- Lines 39-48 of `AttendanceChart`: the body of the `.map` over the
scenario list. -/
def scenarioOf (totalClasses attendedClasses : ℤ) (targetPercentage : ℚ)
    (classes : ℤ) : ScenarioProjection :=
  let newAttended := attendedClasses + max 0 classes
  let newTotal := totalClasses + |classes|
  let newPercentage := ((newAttended : ℚ) / (newTotal : ℚ)) * 100
  { classes := classes
    percentage := newPercentage
    status := if newPercentage ≥ targetPercentage then "safe" else "danger" }

/-- The fixed deltas of lines 35-38 of `AttendanceChart`. -/
def scenarioDeltas : List ℤ := [5, 10, -3, -5]

/-- Lines 34-48 of `AttendanceChart`, generalised over the delta list it
maps over (the component instantiates it with `scenarioDeltas`). -/
def futureAttendanceScenarios (totalClasses attendedClasses : ℤ) (targetPercentage : ℚ)
    (deltas : List ℤ) : List ScenarioProjection :=
  deltas.map (scenarioOf totalClasses attendedClasses targetPercentage)

/-- Lines 264-266 of `AttendanceInsights` (`targetInsights`):
`Math.max(0, Math.ceil((target * totalClasses - 100 * attendedClasses) /
(100 - target)))`. -/
def classesNeededFor (totalClasses attendedClasses : ℤ) (target : ℚ) : ℤ :=
  max 0 (Int.ceil ((target * (totalClasses : ℚ) - 100 * (attendedClasses : ℚ)) /
    (100 - target)))

/-- With the two source-side validations passed, `calculateAttendance`
returns the result record built from the four field computations. -/
lemma compute_ok (t a : ℤ) (p : ℚ) (ht : 0 < t) (hat : a ≤ t) :
    calculateAttendance t a p = Except.ok
      { currentPercentage := currentPercentageCalc t a
        status := statusCalc t a p
        classesToAttend := classesToAttendCalc t a p
        classesToBunk := classesToBunkCalc t a p } := by
  unfold calculateAttendance
  rw [if_neg (by omega), if_neg (by omega)]

/-- The target inequality for attending `k` further classes, as a linear
condition on `k` (valid whenever the new total is positive and the
target is below 100). -/
lemma meets_target_iff (t a k : ℤ) (p : ℚ) (htk : 0 < t + k) (hp : p < 100) :
    (p ≤ (((a : ℚ) + (k : ℚ)) / ((t : ℚ) + (k : ℚ))) * 100) ↔
      (p * (t : ℚ) - 100 * (a : ℚ)) / (100 - p) ≤ (k : ℚ) := by
  have h1 : (0 : ℚ) < (t : ℚ) + (k : ℚ) := by exact_mod_cast htk
  have h2 : (0 : ℚ) < 100 - p := by linarith
  rw [div_mul_eq_mul_div, le_div_iff h1, div_le_iff h2]
  constructor <;> intro h <;> nlinarith

/-- The target inequality for bunking `m` further classes, as a linear
condition on `m` (valid whenever the new total is positive and the
target is positive). -/
lemma bunk_target_iff (t a m : ℤ) (p : ℚ) (htm : 0 < t + m) (hp : 0 < p) :
    (p ≤ ((a : ℚ) / ((t : ℚ) + (m : ℚ))) * 100) ↔
      (m : ℚ) ≤ (100 * (a : ℚ) - p * (t : ℚ)) / p := by
  have h1 : (0 : ℚ) < (t : ℚ) + (m : ℚ) := by exact_mod_cast htm
  rw [div_mul_eq_mul_div, le_div_iff h1, le_div_iff hp]
  constructor <;> intro h <;> nlinarith

/-- The floored quantity of lines 69-71 equals the simplified closed
form `(100·attended − target·total) / target` when the target is not
zero. -/
lemma maxMissable_eq (t a : ℤ) (p : ℚ) (hp : p ≠ 0) :
    maxMissableClasses t a p =
      Int.floor ((100 * (a : ℚ) - p * (t : ℚ)) / p) := by
  unfold maxMissableClasses
  congr 1
  rw [div_eq_div_iff (by positivity) hp]
  ring

/-- C1 counterexample: the claim says `compute` fails with an
`InvalidInput` error whenever `attendedClasses` is outside
`[0, totalClasses]`, but at `totalClasses = 5`, `attendedClasses = -1`,
`targetPercentage = 75` the code runs no such check and succeeds,
producing a result record. -/
theorem calculateAttendance_accepts_negative_attended :
    calculateAttendance 5 (-1) 75 =
      Except.ok ⟨-20, Status.danger, 19, 0⟩ := by
  norm_num [calculateAttendance, currentPercentageCalc, statusCalc, classesToAttendCalc,
    classesToBunkCalc, maxMissableClasses, Int.ceil_neg, Int.floor_neg]

/-- C1 (amended): `calculateAttendance` fails with an invalid-input
error exactly when `totalClasses ≤ 0` or
`attendedClasses > totalClasses`; for every other input — including
negative `attendedClasses` and any `targetPercentage` whatsoever — it
succeeds and produces an `AttendanceResult`. -/
theorem calculateAttendance_error_iff (t a : ℤ) (p : ℚ) :
    ((∃ e, calculateAttendance t a p = Except.error e) ↔ (t ≤ 0 ∨ t < a)) ∧
      ((∃ r, calculateAttendance t a p = Except.ok r) ↔ (0 < t ∧ a ≤ t)) := by
  unfold calculateAttendance
  split_ifs with h1 h2
  · refine ⟨⟨fun _ => Or.inl h1, fun _ => ⟨_, rfl⟩⟩, ?_, ?_⟩
    · rintro ⟨r, hr⟩
      simp at hr
    · rintro ⟨hh, _⟩
      omega
  · refine ⟨⟨fun _ => Or.inr h2, fun _ => ⟨_, rfl⟩⟩, ?_, ?_⟩
    · rintro ⟨r, hr⟩
      simp at hr
    · rintro ⟨_, hh⟩
      omega
  · refine ⟨⟨?_, ?_⟩, fun _ => ⟨by omega, by omega⟩, fun _ => ⟨_, rfl⟩⟩
    · rintro ⟨e, he⟩
      simp at he
    · intro hor
      exact absurd hor (by omega)

/-- C2: for every valid input, the `classesToAttend` field of the result
satisfies `(attended + k) / (total + k) × 100 ≥ target`, and when it is
positive, the value minus one does not satisfy it — it is the smallest
such non-negative integer. -/
theorem classesToAttend_minimal (t a : ℤ) (p : ℚ) (r : AttendanceResult)
    (ht : 0 < t) (ha : 0 ≤ a) (hat : a ≤ t) (hp0 : 0 < p) (hp1 : p < 100)
    (h : calculateAttendance t a p = Except.ok r) :
    p ≤ (((a : ℚ) + (r.classesToAttend : ℚ)) / ((t : ℚ) + (r.classesToAttend : ℚ))) * 100 ∧
      (0 < r.classesToAttend →
        ¬ p ≤ (((a : ℚ) + ((r.classesToAttend - 1 : ℤ) : ℚ)) /
            ((t : ℚ) + ((r.classesToAttend - 1 : ℤ) : ℚ))) * 100) := by
  rw [compute_ok t a p ht hat] at h
  injection h with h
  subst h
  dsimp only
  unfold classesToAttendCalc
  set q : ℚ := (p * (t : ℚ) - 100 * (a : ℚ)) / (100 - p) with hq
  have hk0 : (0 : ℤ) ≤ max 0 ⌈q⌉ := le_max_left 0 _
  constructor
  · rw [meets_target_iff t a (max 0 ⌈q⌉) p (by omega) hp1]
    calc q ≤ (⌈q⌉ : ℚ) := Int.le_ceil q
      _ ≤ ((max 0 ⌈q⌉ : ℤ) : ℚ) := by exact_mod_cast le_max_right 0 ⌈q⌉
  · intro hpos
    have hc : 0 < ⌈q⌉ := by
      rcases le_or_lt ⌈q⌉ 0 with hle | hlt
      · rw [max_eq_left hle] at hpos
        omega
      · exact hlt
    rw [max_eq_right hc.le] at hpos ⊢
    rw [meets_target_iff t a (⌈q⌉ - 1) p (by omega) hp1]
    push_neg
    have hlt := Int.ceil_lt_add_one q
    push_cast
    linarith

/-- C3: for every valid input, the `classesToBunk` field of the result
satisfies `attended / (total + m) × 100 ≥ target` whenever that
inequality is satisfiable at `m = 0`, and the value plus one always
violates it — it is the largest such non-negative integer when one
exists, and `0` otherwise. -/
theorem classesToBunk_maximal (t a : ℤ) (p : ℚ) (r : AttendanceResult)
    (ht : 0 < t) (ha : 0 ≤ a) (hat : a ≤ t) (hp0 : 0 < p) (hp1 : p < 100)
    (h : calculateAttendance t a p = Except.ok r) :
    (p ≤ ((a : ℚ) / (t : ℚ)) * 100 →
      p ≤ ((a : ℚ) / ((t : ℚ) + (r.classesToBunk : ℚ))) * 100) ∧
      ¬ p ≤ ((a : ℚ) / ((t : ℚ) + ((r.classesToBunk + 1 : ℤ) : ℚ))) * 100 := by
  rw [compute_ok t a p ht hat] at h
  injection h with h
  subst h
  dsimp only
  unfold classesToBunkCalc
  rw [maxMissable_eq t a p hp0.ne']
  set q : ℚ := (100 * (a : ℚ) - p * (t : ℚ)) / p with hq
  have hm0 : (0 : ℤ) ≤ max 0 ⌊q⌋ := le_max_left 0 _
  constructor
  · intro hsat
    have hsat' : p ≤ ((a : ℚ) / ((t : ℚ) + ((0 : ℤ) : ℚ))) * 100 := by
      push_cast
      simpa using hsat
    have h0 := (bunk_target_iff t a 0 p (by omega) hp0).mp hsat'
    rw [← hq] at h0
    have hq0 : (0 : ℚ) ≤ q := by exact_mod_cast h0
    have hfl : (0 : ℤ) ≤ ⌊q⌋ := Int.le_floor.mpr (by exact_mod_cast hq0)
    rw [bunk_target_iff t a (max 0 ⌊q⌋) p (by omega) hp0, ← hq]
    rw [max_eq_right hfl]
    exact_mod_cast Int.floor_le q
  · rw [bunk_target_iff t a (max 0 ⌊q⌋ + 1) p (by omega) hp0, ← hq]
    push_neg
    have h1 := Int.lt_floor_add_one q
    have h2 : (⌊q⌋ : ℚ) ≤ ((max 0 ⌊q⌋ : ℤ) : ℚ) := by exact_mod_cast le_max_right 0 ⌊q⌋
    push_cast at h2 ⊢
    linarith

/-- C4: for every valid input, the status is `safe` iff the current
percentage is at least the target, `warning` iff it is in
`[target − 5, target)`, and `danger` iff it is below `target − 5`; each
band is inclusive at its lower boundary. -/
theorem status_bands (t a : ℤ) (p : ℚ) (r : AttendanceResult)
    (ht : 0 < t) (ha : 0 ≤ a) (hat : a ≤ t) (hp0 : 0 < p) (hp1 : p < 100)
    (h : calculateAttendance t a p = Except.ok r) :
    (r.status = Status.safe ↔ p ≤ r.currentPercentage) ∧
      (r.status = Status.warning ↔ p - 5 ≤ r.currentPercentage ∧ r.currentPercentage < p) ∧
      (r.status = Status.danger ↔ r.currentPercentage < p - 5) := by
  rw [compute_ok t a p ht hat] at h
  injection h with h
  subst h
  dsimp only
  unfold statusCalc
  split_ifs with h1 h2
  · exact ⟨⟨fun _ => h1, fun _ => rfl⟩,
      ⟨fun hc => by simp at hc, fun hc => absurd h1 (not_le.mpr hc.2)⟩,
      ⟨fun hc => by simp at hc, fun hc => absurd h1 (not_le.mpr (by linarith))⟩⟩
  · exact ⟨⟨fun hc => by simp at hc, fun hc => absurd hc h1⟩,
      ⟨fun _ => ⟨h2, not_le.mp h1⟩, fun _ => rfl⟩,
      ⟨fun hc => by simp at hc, fun hc => absurd h2 (not_le.mpr hc)⟩⟩
  · exact ⟨⟨fun hc => by simp at hc, fun hc => absurd hc h1⟩,
      ⟨fun hc => by simp at hc, fun hc => absurd hc.1 h2⟩,
      ⟨fun _ => not_le.mp h2, fun _ => rfl⟩⟩

/-- C5: with totals fixed, raising the target percentage never decreases
`classesToAttend` and never increases `classesToBunk`. -/
theorem classes_monotone_in_target (t a : ℤ) (p1 p2 : ℚ) (r1 r2 : AttendanceResult)
    (ht : 0 < t) (ha : 0 ≤ a) (hat : a ≤ t)
    (hp0 : 0 < p1) (h12 : p1 < p2) (hp1 : p2 < 100)
    (h1 : calculateAttendance t a p1 = Except.ok r1)
    (h2 : calculateAttendance t a p2 = Except.ok r2) :
    r1.classesToAttend ≤ r2.classesToAttend ∧ r2.classesToBunk ≤ r1.classesToBunk := by
  rw [compute_ok t a p1 ht hat] at h1
  rw [compute_ok t a p2 ht hat] at h2
  injection h1 with h1
  injection h2 with h2
  subst h1
  subst h2
  dsimp only
  have ha' : (0 : ℚ) ≤ (a : ℚ) := by exact_mod_cast ha
  have hat' : (a : ℚ) ≤ (t : ℚ) := by exact_mod_cast hat
  constructor
  · unfold classesToAttendCalc
    have hmono : (p1 * (t : ℚ) - 100 * (a : ℚ)) / (100 - p1) ≤
        (p2 * (t : ℚ) - 100 * (a : ℚ)) / (100 - p2) := by
      rw [div_le_div_iff (by linarith) (by linarith)]
      nlinarith [mul_nonneg (sub_nonneg.mpr h12.le) (sub_nonneg.mpr hat')]
    exact max_le_max le_rfl (Int.ceil_mono hmono)
  · unfold classesToBunkCalc
    rw [maxMissable_eq t a p1 hp0.ne',
      maxMissable_eq t a p2 (show (0 : ℚ) < p2 by linarith).ne']
    have hmono : (100 * (a : ℚ) - p2 * (t : ℚ)) / p2 ≤
        (100 * (a : ℚ) - p1 * (t : ℚ)) / p1 := by
      rw [div_le_div_iff (by linarith) hp0]
      nlinarith [mul_nonneg ha' (sub_nonneg.mpr h12.le)]
    exact max_le_max le_rfl (Int.floor_mono hmono)

/-- C7: the classes-needed count of the `targetInsights` helper,
evaluated at a candidate target `T`, is exactly the `classesToAttend`
that `calculateAttendance` returns when run with target `T`. -/
theorem classesNeededFor_matches (t a : ℤ) (p T : ℚ) (r : AttendanceResult)
    (ht : 0 < t) (ha : 0 ≤ a) (hat : a ≤ t) (hpT : p < T) (hT : T < 100)
    (h : calculateAttendance t a T = Except.ok r) :
    classesNeededFor t a T = r.classesToAttend := by
  rw [compute_ok t a T ht hat] at h
  injection h with h
  subst h
  rfl

/-- C8: for every valid input, the current percentage of the result is
`attended / total × 100`, and it lies in `[0, 100]`. -/
theorem currentPercentage_bounds (t a : ℤ) (p : ℚ) (r : AttendanceResult)
    (ht : 0 < t) (ha : 0 ≤ a) (hat : a ≤ t) (hp0 : 0 < p) (hp1 : p < 100)
    (h : calculateAttendance t a p = Except.ok r) :
    r.currentPercentage = ((a : ℚ) / (t : ℚ)) * 100 ∧
      0 ≤ r.currentPercentage ∧ r.currentPercentage ≤ 100 := by
  rw [compute_ok t a p ht hat] at h
  injection h with h
  subst h
  dsimp only
  have ht' : (0 : ℚ) < (t : ℚ) := by exact_mod_cast ht
  have ha' : (0 : ℚ) ≤ (a : ℚ) := by exact_mod_cast ha
  have hat' : (a : ℚ) ≤ (t : ℚ) := by exact_mod_cast hat
  refine ⟨rfl, ?_, ?_⟩
  · unfold currentPercentageCalc
    positivity
  · unfold currentPercentageCalc
    have hle : (a : ℚ) / (t : ℚ) ≤ 1 := (div_le_one ht').mpr hat'
    nlinarith

/-- C9: a call that fails validation leaves the stored result state
unchanged: `calculateAttendance` returns before `setResult` runs. -/
theorem failed_call_keeps_result (t a : ℤ) (p : ℚ) (st : Option AttendanceResult)
    (h : t ≤ 0 ∨ t < a) :
    calcStep t a p st = st := by
  unfold calcStep calculateAttendance
  rcases h with h | h
  · rw [if_pos h]
  · by_cases h0 : t ≤ 0
    · rw [if_pos h0]
    · rw [if_neg h0, if_pos (show a > t by omega)]

/-- C6: the scenario projection for each delta has
`resultingPercentage = (attended + max(0, delta)) / (total + |delta|) × 100`,
it meets the target (status `safe`) exactly when that percentage reaches
the target, and the projection sequence keeps the order of the input
deltas: the i-th output is the projection of the i-th delta. -/
theorem scenario_projection_spec (t a : ℤ) (p : ℚ) (deltas : List ℤ) (i : ℕ) (d : ℤ)
    (ht : 0 < t) (ha : 0 ≤ a) (hat : a ≤ t) (hp0 : 0 < p) (hp1 : p < 100)
    (hd : deltas.get? i = some d) :
    (futureAttendanceScenarios t a p deltas).get? i = some (scenarioOf t a p d) ∧
      (scenarioOf t a p d).percentage =
        (((a : ℚ) + ((max 0 d : ℤ) : ℚ)) / ((t : ℚ) + ((|d| : ℤ) : ℚ))) * 100 ∧
      ((scenarioOf t a p d).status = "safe" ↔ p ≤ (scenarioOf t a p d).percentage) := by
  refine ⟨?_, ?_, ?_⟩
  · unfold futureAttendanceScenarios
    rw [List.get?_map, hd]
    rfl
  · unfold scenarioOf
    dsimp only
    push_cast
    ring
  · unfold scenarioOf
    dsimp only
    split_ifs with hge
    · simp only [ge_iff_le] at hge
      push_cast at hge
      simp [hge]
    · simp only [ge_iff_le] at hge
      push_cast at hge
      simp [hge]

/-- C10: in every accepted result over a valid input, a `safe` status
forces `classesToAttend = 0`, a `warning` or `danger` status forces
`classesToBunk = 0`, and the two counters are never both positive. -/
theorem counters_exclusive (t a : ℤ) (p : ℚ) (r : AttendanceResult)
    (ht : 0 < t) (ha : 0 ≤ a) (hat : a ≤ t) (hp0 : 0 < p) (hp1 : p < 100)
    (h : calculateAttendance t a p = Except.ok r) :
    (r.status = Status.safe → r.classesToAttend = 0) ∧
      ((r.status = Status.warning ∨ r.status = Status.danger) → r.classesToBunk = 0) ∧
      ¬ (0 < r.classesToAttend ∧ 0 < r.classesToBunk) := by
  rw [compute_ok t a p ht hat] at h
  injection h with h
  subst h
  dsimp only
  have ht' : (0 : ℚ) < (t : ℚ) := by exact_mod_cast ht
  have hsafe_iff : statusCalc t a p = Status.safe ↔ p ≤ currentPercentageCalc t a := by
    unfold statusCalc
    split_ifs with h1 h2
    · simp [h1]
    · simp [h1]
    · simp [h1]
  have hattend : p ≤ currentPercentageCalc t a → classesToAttendCalc t a p = 0 := by
    intro hcp
    have hnum : p * (t : ℚ) - 100 * (a : ℚ) ≤ 0 := by
      unfold currentPercentageCalc at hcp
      rw [div_mul_eq_mul_div, le_div_iff ht'] at hcp
      nlinarith
    have hql : (p * (t : ℚ) - 100 * (a : ℚ)) / (100 - p) ≤ 0 :=
      div_nonpos_iff.mpr (Or.inr ⟨hnum, by linarith⟩)
    unfold classesToAttendCalc
    exact max_eq_left (Int.ceil_le.mpr (by exact_mod_cast hql))
  have hbunk : ¬ p ≤ currentPercentageCalc t a → classesToBunkCalc t a p = 0 := by
    intro hcp
    have hlt : currentPercentageCalc t a < p := not_le.mp hcp
    have hnum : 100 * (a : ℚ) - p * (t : ℚ) < 0 := by
      unfold currentPercentageCalc at hlt
      rw [div_mul_eq_mul_div, div_lt_iff ht'] at hlt
      nlinarith
    have hql : (100 * (a : ℚ) - p * (t : ℚ)) / p < 0 := div_neg_of_neg_of_pos hnum hp0
    unfold classesToBunkCalc
    rw [maxMissable_eq t a p hp0.ne']
    exact max_eq_left (Int.floor_lt.mpr (by exact_mod_cast hql)).le
  refine ⟨fun hs => hattend (hsafe_iff.mp hs), ?_, ?_⟩
  · intro hs
    refine hbunk fun hcp => ?_
    rcases hs with hs | hs <;> rw [hsafe_iff.mpr hcp] at hs <;> simp at hs
  · rintro ⟨hA, hB⟩
    rcases le_or_lt p (currentPercentageCalc t a) with hcp | hcp
    · rw [hattend hcp] at hA
      omega
    · rw [hbunk (not_le.mpr hcp)] at hB
      omega

/-- Witness for C2 at totalClasses 50, attendedClasses 30, target 75:
the returned classesToAttend is 30, attending 30 more classes reaches
75% and attending only 29 more does not. -/
theorem classesToAttend_minimal_witness :
    calculateAttendance 50 30 75 = Except.ok ⟨60, Status.danger, 30, 0⟩ ∧
      ((75 : ℚ) ≤ ((((30 : ℤ) : ℚ) + ((30 : ℤ) : ℚ)) /
          (((50 : ℤ) : ℚ) + ((30 : ℤ) : ℚ))) * 100 ∧
        (0 < (30 : ℤ) →
          ¬ (75 : ℚ) ≤ ((((30 : ℤ) : ℚ) + (((30 : ℤ) - 1 : ℤ) : ℚ)) /
              (((50 : ℤ) : ℚ) + (((30 : ℤ) - 1 : ℤ) : ℚ))) * 100)) := by
  have hok : calculateAttendance 50 30 75 = Except.ok ⟨60, Status.danger, 30, 0⟩ := by
    norm_num [calculateAttendance, currentPercentageCalc, statusCalc, classesToAttendCalc,
      classesToBunkCalc, maxMissableClasses, Int.ceil_neg, Int.floor_neg]
  exact ⟨hok, classesToAttend_minimal 50 30 75 ⟨60, Status.danger, 30, 0⟩ (by norm_num)
    (by norm_num) (by norm_num) (by norm_num) (by norm_num) hok⟩

/-- Witness for C3 at totalClasses 50, attendedClasses 40, target 75:
the returned classesToBunk is 3, bunking 3 classes keeps 75% and
bunking 4 does not. -/
theorem classesToBunk_maximal_witness :
    calculateAttendance 50 40 75 = Except.ok ⟨80, Status.safe, 0, 3⟩ ∧
      (((75 : ℚ) ≤ (((40 : ℤ) : ℚ) / ((50 : ℤ) : ℚ)) * 100 →
        (75 : ℚ) ≤ (((40 : ℤ) : ℚ) / (((50 : ℤ) : ℚ) + ((3 : ℤ) : ℚ))) * 100) ∧
        ¬ (75 : ℚ) ≤ (((40 : ℤ) : ℚ) / (((50 : ℤ) : ℚ) + (((3 : ℤ) + 1 : ℤ) : ℚ))) * 100) := by
  have hok : calculateAttendance 50 40 75 = Except.ok ⟨80, Status.safe, 0, 3⟩ := by
    norm_num [calculateAttendance, currentPercentageCalc, statusCalc, classesToAttendCalc,
      classesToBunkCalc, maxMissableClasses, Int.ceil_neg, Int.floor_neg]
  exact ⟨hok, classesToBunk_maximal 50 40 75 ⟨80, Status.safe, 0, 3⟩ (by norm_num)
    (by norm_num) (by norm_num) (by norm_num) (by norm_num) hok⟩

/-- Witness for C4 at totalClasses 20, attendedClasses 14, target 75:
the current percentage 70 sits exactly on the warning band's inclusive
lower boundary. -/
theorem status_bands_witness :
    calculateAttendance 20 14 75 = Except.ok ⟨70, Status.warning, 4, 0⟩ ∧
      ((Status.warning = Status.safe ↔ (75 : ℚ) ≤ (70 : ℚ)) ∧
        (Status.warning = Status.warning ↔ (75 : ℚ) - 5 ≤ (70 : ℚ) ∧ (70 : ℚ) < (75 : ℚ)) ∧
        (Status.warning = Status.danger ↔ (70 : ℚ) < (75 : ℚ) - 5)) := by
  have hok : calculateAttendance 20 14 75 = Except.ok ⟨70, Status.warning, 4, 0⟩ := by
    norm_num [calculateAttendance, currentPercentageCalc, statusCalc, classesToAttendCalc,
      classesToBunkCalc, maxMissableClasses, Int.ceil_neg, Int.floor_neg]
  exact ⟨hok, status_bands 20 14 75 ⟨70, Status.warning, 4, 0⟩ (by norm_num)
    (by norm_num) (by norm_num) (by norm_num) (by norm_num) hok⟩

/-- Witness for C5 at totalClasses 50, attendedClasses 40, targets 75
and 90: classesToAttend rises from 0 to 50 and classesToBunk drops from
3 to 0. -/
theorem classes_monotone_in_target_witness :
    calculateAttendance 50 40 75 = Except.ok ⟨80, Status.safe, 0, 3⟩ ∧
      calculateAttendance 50 40 90 = Except.ok ⟨80, Status.danger, 50, 0⟩ ∧
      ((0 : ℤ) ≤ (50 : ℤ) ∧ (0 : ℤ) ≤ (3 : ℤ)) := by
  have hok1 : calculateAttendance 50 40 75 = Except.ok ⟨80, Status.safe, 0, 3⟩ := by
    norm_num [calculateAttendance, currentPercentageCalc, statusCalc, classesToAttendCalc,
      classesToBunkCalc, maxMissableClasses, Int.ceil_neg, Int.floor_neg]
  have hok2 : calculateAttendance 50 40 90 = Except.ok ⟨80, Status.danger, 50, 0⟩ := by
    norm_num [calculateAttendance, currentPercentageCalc, statusCalc, classesToAttendCalc,
      classesToBunkCalc, maxMissableClasses, Int.ceil_neg, Int.floor_neg]
  exact ⟨hok1, hok2, classes_monotone_in_target 50 40 75 90 ⟨80, Status.safe, 0, 3⟩
    ⟨80, Status.danger, 50, 0⟩ (by norm_num) (by norm_num) (by norm_num) (by norm_num)
    (by norm_num) (by norm_num) hok1 hok2⟩

/-- Witness for C6 at totalClasses 50, attendedClasses 40, target 75,
on the component's own delta list at index 2 (delta −3): missing 3 more
classes leaves 4000/53 ≈ 75.47%, which still meets the target. -/
theorem scenario_projection_spec_witness :
    scenarioDeltas.get? 2 = some (-3) ∧
      ((futureAttendanceScenarios 50 40 75 scenarioDeltas).get? 2 =
          some (scenarioOf 50 40 75 (-3)) ∧
        (scenarioOf 50 40 75 (-3)).percentage =
          ((((40 : ℤ) : ℚ) + ((max 0 (-3 : ℤ) : ℤ) : ℚ)) /
            (((50 : ℤ) : ℚ) + ((|(-3 : ℤ)| : ℤ) : ℚ))) * 100 ∧
        ((scenarioOf 50 40 75 (-3)).status = "safe" ↔
          (75 : ℚ) ≤ (scenarioOf 50 40 75 (-3)).percentage)) :=
  ⟨rfl, scenario_projection_spec 50 40 75 scenarioDeltas 2 (-3) (by norm_num)
    (by norm_num) (by norm_num) (by norm_num) (by norm_num) rfl⟩

/-- Witness for C7 at totalClasses 50, attendedClasses 40, current
target 75 and candidate target 80: the insights helper and the core both
yield 0 further classes. -/
theorem classesNeededFor_matches_witness :
    calculateAttendance 50 40 80 = Except.ok ⟨80, Status.safe, 0, 0⟩ ∧
      classesNeededFor 50 40 80 = (0 : ℤ) := by
  have hok : calculateAttendance 50 40 80 = Except.ok ⟨80, Status.safe, 0, 0⟩ := by
    norm_num [calculateAttendance, currentPercentageCalc, statusCalc, classesToAttendCalc,
      classesToBunkCalc, maxMissableClasses, Int.ceil_neg, Int.floor_neg]
  exact ⟨hok, classesNeededFor_matches 50 40 75 80 ⟨80, Status.safe, 0, 0⟩ (by norm_num)
    (by norm_num) (by norm_num) (by norm_num) (by norm_num) hok⟩

/-- Witness for C8 at totalClasses 50, attendedClasses 40, target 75:
the current percentage is 40/50 × 100 = 80 ∈ [0, 100]. -/
theorem currentPercentage_bounds_witness :
    calculateAttendance 50 40 75 = Except.ok ⟨80, Status.safe, 0, 3⟩ ∧
      ((80 : ℚ) = (((40 : ℤ) : ℚ) / ((50 : ℤ) : ℚ)) * 100 ∧
        (0 : ℚ) ≤ (80 : ℚ) ∧ (80 : ℚ) ≤ 100) := by
  have hok : calculateAttendance 50 40 75 = Except.ok ⟨80, Status.safe, 0, 3⟩ := by
    norm_num [calculateAttendance, currentPercentageCalc, statusCalc, classesToAttendCalc,
      classesToBunkCalc, maxMissableClasses, Int.ceil_neg, Int.floor_neg]
  exact ⟨hok, currentPercentage_bounds 50 40 75 ⟨80, Status.safe, 0, 3⟩ (by norm_num)
    (by norm_num) (by norm_num) (by norm_num) (by norm_num) hok⟩

/-- Witness for C9 at the invalid input totalClasses = 0: the stored
result state survives the failed call unchanged. -/
theorem failed_call_keeps_result_witness :
    ((0 : ℤ) ≤ 0 ∨ (0 : ℤ) < 0) ∧
      calcStep 0 0 75 (some ⟨80, Status.safe, 0, 3⟩) = some ⟨80, Status.safe, 0, 3⟩ :=
  ⟨Or.inl le_rfl,
    failed_call_keeps_result 0 0 75 (some ⟨80, Status.safe, 0, 3⟩) (Or.inl le_rfl)⟩

/-- Witness for C10 at totalClasses 50, attendedClasses 40, target 75:
the result is safe with classesToAttend 0 and classesToBunk 3, so only
one counter is positive. -/
theorem counters_exclusive_witness :
    calculateAttendance 50 40 75 = Except.ok ⟨80, Status.safe, 0, 3⟩ ∧
      ((Status.safe = Status.safe → (0 : ℤ) = 0) ∧
        ((Status.safe = Status.warning ∨ Status.safe = Status.danger) → (3 : ℤ) = 0) ∧
        ¬ (0 < (0 : ℤ) ∧ 0 < (3 : ℤ))) := by
  have hok : calculateAttendance 50 40 75 = Except.ok ⟨80, Status.safe, 0, 3⟩ := by
    norm_num [calculateAttendance, currentPercentageCalc, statusCalc, classesToAttendCalc,
      classesToBunkCalc, maxMissableClasses, Int.ceil_neg, Int.floor_neg]
  exact ⟨hok, counters_exclusive 50 40 75 ⟨80, Status.safe, 0, 3⟩ (by norm_num)
    (by norm_num) (by norm_num) (by norm_num) (by norm_num) hok⟩

end Attendance
